import Mathlib

/-!
Verification of the BibMap backend's legend/taxonomy matching logic, its
reference/media write paths, and the user-id schema migration script, as a
shallow embedding in Lean 4.

Sources embedded (python):
  backend/app/routers/nodes.py       (get_node_references, get_node_media,
                                      get_public_node_references, get_public_node_media)
  backend/app/routers/references.py  (create_reference, import_bibtex, update_reference)
  backend/app/routers/media.py       (create_media, update_media)
  scripts/migrate_user_ids.py        (check_column_type, migrate_taxonomies,
                                      migrate_table_user_id, verify_foreign_keys, main)
-/

namespace BibMaps

/-! ## Python `str.upper` on ASCII strings

All strings the matching logic uppercases are hex color strings, so Python's
`str.upper` is embedded as per-character ASCII uppercasing. -/

/-- ASCII uppercasing of one character: `a`-`z` maps to `A`-`Z`, all else fixed. -/
def upperChar (c : Char) : Char :=
  if 97 ≤ c.toNat ∧ c.toNat ≤ 122 then Char.ofNat (c.toNat - 32) else c

/-- Embedding of Python `s.upper()` for ASCII strings. -/
def pyUpper (s : String) : String :=
  String.mk (s.data.map upperChar)

/-! ## Data model (backend/app/models/models.py) -/

inductive UserRole where
  | admin
  | user
deriving DecidableEq

structure User where
  id : Nat
  role : UserRole
deriving DecidableEq

structure Taxonomy where
  id : Nat
  name : String
  color : String
deriving DecidableEq

structure Reference where
  id : Nat
  bibtex_key : String
  entry_type : String
  title : Option String
  author : Option String
  year : Option String
  journal : Option String
  booktitle : Option String
  publisher : Option String
  volume : Option String
  number : Option String
  pages : Option String
  doi : Option String
  url : Option String
  abstract : Option String
  raw_bibtex : String
  extra_fields : Option String
  legend_category : Option String
  user_id : Option Nat
  taxonomies : List Taxonomy
deriving DecidableEq

structure Media where
  id : Nat
  title : String
  url : String
  description : Option String
  legend_category : Option String
  user_id : Option Nat
  taxonomies : List Taxonomy
deriving DecidableEq

structure Node where
  id : Nat
  bibmap_id : Nat
  label : String
  background_color : Option String
  taxonomies : List Taxonomy
deriving DecidableEq

structure BibMap where
  id : Nat
  user_id : Option Nat
  is_published : Bool
deriving DecidableEq

/-- schemas.MatchReason: `type` is either "taxonomy" (with taxonomy fields set)
or "legend_category" (with the legend_category field set). -/
inductive MatchReason where
  | taxonomy (taxonomy_id : Nat) (taxonomy_name : String) (taxonomy_color : String)
  | legend_category (legend_category : String)
deriving DecidableEq

def isTaxonomyReason : MatchReason → Bool
  | MatchReason.taxonomy _ _ _ => true
  | MatchReason.legend_category _ => false

def isLegendReason : MatchReason → Bool
  | MatchReason.taxonomy _ _ _ => false
  | MatchReason.legend_category _ => true

/-! ## Matching query logic (backend/app/routers/nodes.py) -/

/-- `node_color = node.background_color.upper() if node.background_color else None`:
a missing or empty (falsy) background color yields None. -/
def nodeColor (bg : Option String) : Option String :=
  match bg with
  | none => none
  | some s => if s = "" then none else some (pyUpper s)

/-- `has_legend_match = node_color and node_color != default_color.upper()`
with `default_color = "#3B82F6"`. -/
def hasLegendMatch (bg : Option String) : Bool :=
  match nodeColor bg with
  | none => false
  | some c => c ≠ pyUpper "#3B82F6"

/-- The subquery of reference ids that share at least one of the given taxonomy
ids (`db.query(Reference.id).join(Reference.taxonomies).filter(...)`). -/
def taxonomyMatchIds (refs : List Reference) (taxonomy_ids : List Nat) : List Nat :=
  (refs.filter (fun r => r.taxonomies.any (fun t => taxonomy_ids.contains t.id))).map Reference.id

/-- The `or_(*conditions)` filter of `get_node_references`: taxonomy condition
(present only when the node has taxonomies) or legend condition (present only
when the node has a non-default, non-empty color). NULL never compares equal. -/
def refCondition (node : Node) (refs : List Reference) (r : Reference) : Bool :=
  let taxonomy_ids := node.taxonomies.map Taxonomy.id
  (!taxonomy_ids.isEmpty && (taxonomyMatchIds refs taxonomy_ids).contains r.id)
  || (hasLegendMatch node.background_color &&
        match r.legend_category, nodeColor node.background_color with
        | some lc, some c => lc == c
        | _, _ => false)

/-- The ownership filter applied to the candidate query: admins see everything,
other authenticated users only their own rows, anonymous callers only ownerless
rows. -/
def visibilityFilter (user : Option User) (refs : List Reference) : List Reference :=
  match user with
  | some u => if u.role = UserRole.admin then refs else refs.filter (fun r => r.user_id == some u.id)
  | none => refs.filter (fun r => r.user_id == none)

/-- Whether a row with owner `uid` passes the ownership filter for `user`. -/
def visibleTo (user : Option User) (uid : Option Nat) : Bool :=
  match user with
  | some u => u.role == UserRole.admin || uid == some u.id
  | none => uid == none

/-- The per-reference taxonomy match reasons: one per taxonomy of the reference
whose id occurs among the node's taxonomy ids, in the reference's list order. -/
def taxonomyReasons (node : Node) (r : Reference) : List MatchReason :=
  (r.taxonomies.filter (fun t => (node.taxonomies.map Taxonomy.id).contains t.id)).map
    (fun t => MatchReason.taxonomy t.id t.name t.color)

/-- `if has_legend_match and ref.legend_category and ref.legend_category.upper() == node_color`:
appends one legend_category reason. -/
def legendReasons (node : Node) (r : Reference) : List MatchReason :=
  if hasLegendMatch node.background_color then
    match r.legend_category, nodeColor node.background_color with
    | some lc, some c =>
        if lc ≠ "" ∧ pyUpper lc = c then [MatchReason.legend_category lc] else []
    | _, _ => []
  else []

def matchReasons (node : Node) (r : Reference) : List MatchReason :=
  taxonomyReasons node r ++ legendReasons node r

/-- The taxonomies of the reference shared with the node (those whose id occurs
among the node's taxonomy ids), in the reference's list order; `taxonomyReasons`
emits exactly one reason per element of this list. -/
def sharedTaxonomies (node : Node) (r : Reference) : List Taxonomy :=
  r.taxonomies.filter (fun t => (node.taxonomies.map Taxonomy.id).contains t.id)

/-- `GET /api/nodes/{node_id}/references` core (after the 404/403 checks):
filter by the or-conditions, then by ownership, dedup (`.distinct()`), and
attach match reasons. Returns `[]` when no condition is present. -/
def get_node_references (node : Node) (user : Option User) (refs : List Reference) :
    List (Reference × List MatchReason) :=
  if (node.taxonomies.map Taxonomy.id).isEmpty ∧ hasLegendMatch node.background_color = false then
    []
  else
    (((visibilityFilter user (refs.filter (refCondition node refs))).dedup).map
      (fun r => (r, matchReasons node r)))

/-- `GET /api/nodes/public/{node_id}/references` core (after the 404 and
published checks): candidates are additionally restricted to
`Reference.user_id == bibmap.user_id`, the map owner. -/
def public_node_references (node : Node) (bibmap : BibMap) (refs : List Reference) :
    List (Reference × List MatchReason) :=
  if (node.taxonomies.map Taxonomy.id).isEmpty ∧ hasLegendMatch node.background_color = false then
    []
  else
    ((refs.filter (fun r => refCondition node refs r && r.user_id == bibmap.user_id)).dedup).map
      (fun r => (r, matchReasons node r))

inductive ApiError where
  | notFound (detail : String)
  | forbidden (detail : String)
  | badRequest (detail : String)
deriving DecidableEq

/-- The full public references endpoint: 404 when the node does not exist,
403 when its bib map is missing or not published. -/
def get_public_node_references (node_id : Nat) (nodes : List Node) (bibmaps : List BibMap)
    (refs : List Reference) : Except ApiError (List (Reference × List MatchReason)) :=
  match nodes.find? (fun n => n.id == node_id) with
  | none => Except.error (ApiError.notFound "Node not found")
  | some node =>
    match bibmaps.find? (fun b => b.id == node.bibmap_id) with
    | none => Except.error (ApiError.forbidden "This bib map is not published")
    | some bibmap =>
      if bibmap.is_published = false then
        Except.error (ApiError.forbidden "This bib map is not published")
      else
        Except.ok (public_node_references node bibmap refs)

/-! Media variant of the same pipeline (`get_node_media`, `get_public_node_media`). -/

def mediaTaxonomyMatchIds (items : List Media) (taxonomy_ids : List Nat) : List Nat :=
  (items.filter (fun m => m.taxonomies.any (fun t => taxonomy_ids.contains t.id))).map Media.id

def mediaCondition (node : Node) (items : List Media) (m : Media) : Bool :=
  let taxonomy_ids := node.taxonomies.map Taxonomy.id
  (!taxonomy_ids.isEmpty && (mediaTaxonomyMatchIds items taxonomy_ids).contains m.id)
  || (hasLegendMatch node.background_color &&
        match m.legend_category, nodeColor node.background_color with
        | some lc, some c => lc == c
        | _, _ => false)

def mediaVisibilityFilter (user : Option User) (items : List Media) : List Media :=
  match user with
  | some u => if u.role = UserRole.admin then items else items.filter (fun m => m.user_id == some u.id)
  | none => items.filter (fun m => m.user_id == none)

def mediaTaxonomyReasons (node : Node) (m : Media) : List MatchReason :=
  (m.taxonomies.filter (fun t => (node.taxonomies.map Taxonomy.id).contains t.id)).map
    (fun t => MatchReason.taxonomy t.id t.name t.color)

def mediaLegendReasons (node : Node) (m : Media) : List MatchReason :=
  if hasLegendMatch node.background_color then
    match m.legend_category, nodeColor node.background_color with
    | some lc, some c =>
        if lc ≠ "" ∧ pyUpper lc = c then [MatchReason.legend_category lc] else []
    | _, _ => []
  else []

def mediaMatchReasons (node : Node) (m : Media) : List MatchReason :=
  mediaTaxonomyReasons node m ++ mediaLegendReasons node m

/-- `GET /api/nodes/{node_id}/media` core. -/
def get_node_media (node : Node) (user : Option User) (items : List Media) :
    List (Media × List MatchReason) :=
  if (node.taxonomies.map Taxonomy.id).isEmpty ∧ hasLegendMatch node.background_color = false then
    []
  else
    (((mediaVisibilityFilter user (items.filter (mediaCondition node items))).dedup).map
      (fun m => (m, mediaMatchReasons node m)))

/-- `GET /api/nodes/public/{node_id}/media` core. -/
def public_node_media (node : Node) (bibmap : BibMap) (items : List Media) :
    List (Media × List MatchReason) :=
  if (node.taxonomies.map Taxonomy.id).isEmpty ∧ hasLegendMatch node.background_color = false then
    []
  else
    ((items.filter (fun m => mediaCondition node items m && m.user_id == bibmap.user_id)).dedup).map
      (fun m => (m, mediaMatchReasons node m))

def get_public_node_media (node_id : Nat) (nodes : List Node) (bibmaps : List BibMap)
    (items : List Media) : Except ApiError (List (Media × List MatchReason)) :=
  match nodes.find? (fun n => n.id == node_id) with
  | none => Except.error (ApiError.notFound "Node not found")
  | some node =>
    match bibmaps.find? (fun b => b.id == node.bibmap_id) with
    | none => Except.error (ApiError.forbidden "This bib map is not published")
    | some bibmap =>
      if bibmap.is_published = false then
        Except.error (ApiError.forbidden "This bib map is not published")
      else
        Except.ok (public_node_media node bibmap items)

/-! ## Ownership check (backend/app/auth.py) -/

/-- `check_ownership(user, owner_id, allow_anonymous)`: anonymous access to
ownerless rows is allowed when `allow_anonymous`; admins access anything; an
authenticated user accesses ownerless rows and their own. Every call site in
the embedded routers uses the default `allow_anonymous=True`. -/
def check_ownership_with (user : Option User) (owner_id : Option Nat)
    (allow_anonymous : Bool) : Bool :=
  if user == none && owner_id == none && allow_anonymous then
    true
  else
    match user with
    | some u =>
        if u.role == UserRole.admin then true
        else if owner_id == none || owner_id == some u.id then true
        else false
    | none => false

def check_ownership (user : Option User) (owner_id : Option Nat) : Bool :=
  check_ownership_with user owner_id true

/-! ## Reference/Media write paths (backend/app/routers/references.py, media.py) -/

/-- The legend value stored by the create paths:
`legend_category.upper() if legend_category else None` (None and the empty
string are falsy). -/
def storedLegendOfCreate (input : Option String) : Option String :=
  match input with
  | none => none
  | some s => if s = "" then none else some (pyUpper s)

/-- The legend value stored by the update paths under
`model_dump(exclude_unset=True)` semantics: `provided = none` means the field
was not part of the update; `provided = some v` means the field was set to `v`.
Only a truthy provided value is uppercased; a falsy one (None or "") is stored
as given. -/
def storedLegendOfUpdate (provided : Option (Option String)) (old : Option String) :
    Option String :=
  match provided with
  | none => old
  | some none => none
  | some (some s) => if s = "" then some s else some (pyUpper s)

/-- A stored legend value is NULL or equal to its own uppercasing. -/
def upperNormalized (lc : Option String) : Bool :=
  match lc with
  | none => true
  | some s => pyUpper s == s

structure ReferenceCreate where
  bibtex_key : String
  entry_type : String
  title : Option String
  author : Option String
  year : Option String
  journal : Option String
  booktitle : Option String
  publisher : Option String
  volume : Option String
  number : Option String
  pages : Option String
  doi : Option String
  url : Option String
  abstract : Option String
  raw_bibtex : String
  extra_fields : Option String
  legend_category : Option String
  taxonomy_ids : List Nat
deriving DecidableEq

/-- `POST /api/references/`: rejects a duplicate bibtex_key with a 400,
otherwise appends the new row (id from the autoincrement counter) with the
uppercased legend and the caller as owner. -/
def create_reference (input : ReferenceCreate) (user : Option User) (taxTable : List Taxonomy)
    (newId : Nat) (db : List Reference) : Except ApiError (List Reference) :=
  if db.any (fun r => r.bibtex_key == input.bibtex_key) then
    Except.error (ApiError.badRequest "Reference with this BibTeX key already exists")
  else
    Except.ok (db ++ [{
      id := newId
      bibtex_key := input.bibtex_key
      entry_type := input.entry_type
      title := input.title
      author := input.author
      year := input.year
      journal := input.journal
      booktitle := input.booktitle
      publisher := input.publisher
      volume := input.volume
      number := input.number
      pages := input.pages
      doi := input.doi
      url := input.url
      abstract := input.abstract
      raw_bibtex := input.raw_bibtex
      extra_fields := input.extra_fields
      legend_category := storedLegendOfCreate input.legend_category
      user_id := user.map User.id
      taxonomies := taxTable.filter (fun t => input.taxonomy_ids.contains t.id) }])

structure ReferenceUpdate where
  title : Option (Option String)
  author : Option (Option String)
  year : Option (Option String)
  journal : Option (Option String)
  booktitle : Option (Option String)
  publisher : Option (Option String)
  volume : Option (Option String)
  number : Option (Option String)
  pages : Option (Option String)
  doi : Option (Option String)
  url : Option (Option String)
  abstract : Option (Option String)
  taxonomy_ids : Option (Option (List Nat))
  legend_category : Option (Option String)
deriving DecidableEq

/-- Field application of `PUT /api/references/{id}` on the found row: each set
field overwrites the stored one; `taxonomy_ids` set to a list replaces the
taxonomy set; a set, truthy legend_category is uppercased first. -/
def applyReferenceUpdate (upd : ReferenceUpdate) (taxTable : List Taxonomy) (r : Reference) :
    Reference :=
  { r with
    title := (upd.title).getD r.title
    author := (upd.author).getD r.author
    year := (upd.year).getD r.year
    journal := (upd.journal).getD r.journal
    booktitle := (upd.booktitle).getD r.booktitle
    publisher := (upd.publisher).getD r.publisher
    volume := (upd.volume).getD r.volume
    number := (upd.number).getD r.number
    pages := (upd.pages).getD r.pages
    doi := (upd.doi).getD r.doi
    url := (upd.url).getD r.url
    abstract := (upd.abstract).getD r.abstract
    taxonomies :=
      match upd.taxonomy_ids with
      | some (some ids) => taxTable.filter (fun t => ids.contains t.id)
      | _ => r.taxonomies
    legend_category := storedLegendOfUpdate upd.legend_category r.legend_category }

/-- `PUT /api/references/{id}`: 404 when the row is missing, 403 when
`check_ownership` fails, otherwise the update applied in place. -/
def update_reference (reference_id : Nat) (upd : ReferenceUpdate) (user : Option User)
    (taxTable : List Taxonomy) (db : List Reference) : Except ApiError (List Reference) :=
  match db.find? (fun r => r.id == reference_id) with
  | none => Except.error (ApiError.notFound "Reference not found")
  | some r =>
    if check_ownership user r.user_id then
      Except.ok (db.map (fun x => if x.id == reference_id then applyReferenceUpdate upd taxTable x else x))
    else
      Except.error (ApiError.forbidden "Access denied")

structure MediaCreate where
  title : String
  url : String
  description : Option String
  legend_category : Option String
  taxonomy_ids : List Nat
deriving DecidableEq

/-- `POST /api/media/`: stores the new row with the uppercased legend. -/
def create_media (input : MediaCreate) (user : Option User) (taxTable : List Taxonomy)
    (newId : Nat) (db : List Media) : List Media :=
  db ++ [{
    id := newId
    title := input.title
    url := input.url
    description := input.description
    legend_category := storedLegendOfCreate input.legend_category
    user_id := user.map User.id
    taxonomies := taxTable.filter (fun t => input.taxonomy_ids.contains t.id) }]

structure MediaUpdate where
  title : Option (Option String)
  url : Option (Option String)
  description : Option (Option String)
  taxonomy_ids : Option (Option (List Nat))
  legend_category : Option (Option String)
deriving DecidableEq

/-- Field application of `PUT /api/media/{id}` on the found row. -/
def applyMediaUpdate (upd : MediaUpdate) (taxTable : List Taxonomy) (m : Media) : Media :=
  { m with
    title := match upd.title with | some (some s) => s | _ => m.title
    url := match upd.url with | some (some s) => s | _ => m.url
    description := (upd.description).getD m.description
    taxonomies :=
      match upd.taxonomy_ids with
      | some (some ids) => taxTable.filter (fun t => ids.contains t.id)
      | _ => m.taxonomies
    legend_category := storedLegendOfUpdate upd.legend_category m.legend_category }

/-! ## BibTeX bulk import (backend/app/routers/references.py, import_bibtex) -/

/-- One entry of the parser output (a dict with `bibtex_key`, `entry_type` and
`raw_bibtex` always present and the remaining fields via `.get`). -/
structure ParsedEntry where
  bibtex_key : String
  entry_type : String
  title : Option String
  author : Option String
  year : Option String
  journal : Option String
  booktitle : Option String
  publisher : Option String
  volume : Option String
  number : Option String
  pages : Option String
  doi : Option String
  url : Option String
  abstract : Option String
  raw_bibtex : String
  extra_fields : Option String
deriving DecidableEq

/-- The Reference row built for an imported entry. -/
def refOfEntry (e : ParsedEntry) (newId : Nat) (legend : Option String)
    (taxonomies : List Taxonomy) (user : Option User) : Reference :=
  { id := newId
    bibtex_key := e.bibtex_key
    entry_type := e.entry_type
    title := e.title
    author := e.author
    year := e.year
    journal := e.journal
    booktitle := e.booktitle
    publisher := e.publisher
    volume := e.volume
    number := e.number
    pages := e.pages
    doi := e.doi
    url := e.url
    abstract := e.abstract
    raw_bibtex := e.raw_bibtex
    extra_fields := e.extra_fields
    legend_category := storedLegendOfCreate legend
    user_id := user.map User.id
    taxonomies := taxonomies }

/-- The import loop: per entry, a duplicate bibtex_key against the current
database is skipped with an error string; a raising insert (`raises e = some
msg` models the caught exception, with `db.rollback()`) records an error and
continues; a successful insert is committed immediately (the database grows
before the next entry is examined). Returns (final db, imported rows, errors). -/
def importLoop (legend : Option String) (taxonomies : List Taxonomy) (user : Option User)
    (raises : ParsedEntry → Option String) :
    List ParsedEntry → Nat → List Reference → List Reference → List String →
      List Reference × List Reference × List String
  | [], _, db, imported, errors => (db, imported, errors)
  | e :: rest, newId, db, imported, errors =>
    if db.any (fun r => r.bibtex_key == e.bibtex_key) then
      importLoop legend taxonomies user raises rest newId db imported
        (errors ++ ["Skipped duplicate: " ++ e.bibtex_key])
    else
      match raises e with
      | some msg =>
          importLoop legend taxonomies user raises rest newId db imported
            (errors ++ ["Error importing " ++ e.bibtex_key ++ ": " ++ msg])
      | none =>
          let newRef := refOfEntry e newId legend taxonomies user
          importLoop legend taxonomies user raises rest (newId + 1) (db ++ [newRef])
            (imported ++ [newRef]) errors

structure BibTeXImportResult where
  imported : Nat
  errors : List String
  references : List Reference
deriving DecidableEq

/-- `POST /api/references/import`: the parser's output (entries and parse
errors) is consumed by the import loop; the response reports the number of
imported rows, the accumulated error strings, and the imported rows. The
second component is the final database state. -/
def import_bibtex (entries : List ParsedEntry) (parse_errors : List String)
    (legend : Option String) (taxTable : List Taxonomy) (taxonomy_ids : List Nat)
    (user : Option User) (raises : ParsedEntry → Option String) (newId : Nat)
    (db : List Reference) : BibTeXImportResult × List Reference :=
  let taxonomies := taxTable.filter (fun t => taxonomy_ids.contains t.id)
  let out := importLoop legend taxonomies user raises entries newId db [] parse_errors
  ({ imported := out.2.1.length, errors := out.2.2, references := out.2.1 }, out.1)

/-! ## Schema migration script (scripts/migrate_user_ids.py)

SQLite values are dynamically typed; a migration-relevant cell is NULL, an
integer, or a text value. -/

inductive SqlVal where
  | null
  | int (i : Int)
  | text (s : String)
deriving DecidableEq

/-- SQLite `CAST(s AS INTEGER)`: skip leading whitespace, read an optional
sign and the longest digit run; anything else casts to 0. -/
def digitsPrefixVal : List Char → Nat → Nat
  | [], acc => acc
  | c :: cs, acc => if c.isDigit then digitsPrefixVal cs (acc * 10 + (c.toNat - 48)) else acc

def castTextToInt (s : String) : Int :=
  let cs := s.data.dropWhile (fun c => c == ' ' || c == '\t' || c == '\n' || c == '\r')
  match cs with
  | '-' :: rest => - Int.ofNat (digitsPrefixVal rest 0)
  | '+' :: rest => Int.ofNat (digitsPrefixVal rest 0)
  | _ => Int.ofNat (digitsPrefixVal cs 0)

/-- The copy projection of the table rebuild:
`CASE WHEN user_id IS NULL OR user_id = '' THEN NULL ELSE CAST(user_id AS INTEGER) END`. -/
def convertUserId : SqlVal → SqlVal
  | SqlVal.null => SqlVal.null
  | SqlVal.text s => if s = "" then SqlVal.null else SqlVal.int (castTextToInt s)
  | SqlVal.int i => SqlVal.int i

/-- A row of `bibmaps` or `references`: its user_id cell plus its remaining
cells, which the copy passes through unchanged. -/
structure URow where
  user_id : SqlVal
  other : List SqlVal
deriving DecidableEq

/-- A `bibmaps`/`references` table: `user_id_type = none` models a table
without a user_id column, otherwise the column's declared type as written in
the CREATE TABLE statement (what `PRAGMA table_info` reports). -/
structure UserTable where
  name : String
  user_id_type : Option String
  rows : List URow
deriving DecidableEq

/-- `check_column_type`: the PRAGMA-reported type, uppercased; "" when the
column does not exist. -/
def check_column_type (ty : Option String) : String :=
  match ty with
  | none => ""
  | some t => pyUpper t

/-- `migrate_table_user_id(cursor, table, dry_run)`. The conversion is skipped
(message only) when the column is missing, already INTEGER, or of an
unexpected type. A dry run stops after reporting the CONVERT change. A live
run rebuilds the table: the new schema comes from replacing the substring
`user_id VARCHAR(255)` in the original CREATE TABLE sql by
`user_id INTEGER REFERENCES users(id)` (so the declared type becomes INTEGER
exactly when the original declaration spells `VARCHAR(255)` that way), rows
are copied through `convertUserId`, and the COPY/RENAME steps are recorded.
The rebuilt table's index recreation has no observable effect here. -/
def migrate_table_user_id (t : UserTable) (dry : Bool) : UserTable × List String :=
  match t.user_id_type with
  | none => (t, ["SKIP " ++ t.name ++ ": no user_id column"])
  | some rawType =>
    let col_type := check_column_type (some rawType)
    if col_type = "INTEGER" then
      (t, ["SKIP " ++ t.name ++ ".user_id: already INTEGER"])
    else if col_type ≠ "VARCHAR(255)" then
      (t, ["SKIP " ++ t.name ++ ".user_id: unexpected type " ++ col_type])
    else if dry then
      (t, ["CONVERT " ++ t.name ++ ".user_id VARCHAR(255) -> INTEGER"])
    else
      ({ name := t.name
         user_id_type := some (if rawType = "VARCHAR(255)" then "INTEGER" else rawType)
         rows := t.rows.map (fun r => { user_id := convertUserId r.user_id, other := r.other }) },
       ["CONVERT " ++ t.name ++ ".user_id VARCHAR(255) -> INTEGER",
        "COPY " ++ toString t.rows.length ++ " rows from " ++ t.name,
        "RENAME " ++ t.name ++ "_migration_temp -> " ++ t.name])

/-- A row of `taxonomies`. When the user_id / is_global columns are absent the
corresponding fields are unconstrained; adding a column overwrites them with
the column default for every existing row. -/
structure TaxRow where
  id : Nat
  name : String
  color : Option String
  user_id : Option Int
  is_global : Bool
deriving DecidableEq

structure TaxTable where
  has_user_id : Bool
  has_is_global : Bool
  rows : List TaxRow
deriving DecidableEq

/-- `migrate_taxonomies(cursor, dry_run)`: adds the user_id column (NULL for
existing rows) if absent; adds the is_global column (default 0) if absent and
then marks every row with NULL user_id as global. Change strings are recorded
in execution order; in a dry run nothing is executed. -/
def migrate_taxonomies (t : TaxTable) (dry : Bool) : TaxTable × List String :=
  let step1 : TaxTable × List String :=
    if t.has_user_id = false then
      (if dry then t
       else { t with has_user_id := true, rows := t.rows.map (fun r => { r with user_id := none }) },
       ["ADD taxonomies.user_id INTEGER"])
    else (t, [])
  let t1 := step1.1
  let step2 : TaxTable × List String :=
    if t1.has_is_global = false then
      if dry then (t1, ["ADD taxonomies.is_global BOOLEAN DEFAULT 0"])
      else
        let ta : TaxTable := { t1 with
          has_is_global := true
          rows := t1.rows.map (fun r => { r with is_global := false }) }
        ({ ta with
           rows := ta.rows.map (fun r => if r.user_id = none then { r with is_global := true } else r) },
         ["ADD taxonomies.is_global BOOLEAN DEFAULT 0", "SET existing taxonomies to is_global=1"])
    else (t1, [])
  (step2.1, step1.2 ++ step2.2)

/-- The whole SQLite file: the three migrated tables plus the user ids the
orphan check resolves against. -/
structure Database where
  taxonomies : TaxTable
  bibmaps : UserTable
  refs_table : UserTable
  users : List Int
deriving DecidableEq

/-- SQLite comparison of a user_id cell against the INTEGER `users.id` column
inside `NOT IN (SELECT id FROM users)`: text gets numeric affinity applied, so
only a fully numeric text can equal an id. -/
def parseFullInt (s : String) : Option Int :=
  match s.data with
  | [] => none
  | '-' :: rest => if rest ≠ [] ∧ rest.all Char.isDigit then
      some (- Int.ofNat (digitsPrefixVal rest 0)) else none
  | cs => if cs.all Char.isDigit then some (Int.ofNat (digitsPrefixVal cs 0)) else none

def userIdMatchesUser (v : SqlVal) (users : List Int) : Bool :=
  match v with
  | SqlVal.null => false
  | SqlVal.int i => users.contains i
  | SqlVal.text s =>
      match parseFullInt s with
      | some i => users.contains i
      | none => false

/-- Orphaned rows of a bibmaps/references table: non-NULL user_id values not
resolving to an existing user; nothing is checked when the column is absent. -/
def orphanRowsU (t : UserTable) (users : List Int) : List URow :=
  if t.user_id_type.isSome then
    t.rows.filter (fun r =>
      decide (r.user_id ≠ SqlVal.null) && !(userIdMatchesUser r.user_id users))
  else []

def orphanRowsTax (t : TaxTable) (users : List Int) : List TaxRow :=
  if t.has_user_id then
    t.rows.filter (fun r =>
      match r.user_id with
      | some i => !(users.contains i)
      | none => false)
  else []

/-- `verify_foreign_keys(cursor)`: one WARNING string per table that has
orphaned user_id values (the python also lists the first five orphan rows in
the string; only the counted message matters here). -/
def verify_foreign_keys (db : Database) : List String :=
  (let o := orphanRowsU db.bibmaps db.users
   if o ≠ [] then
     ["WARNING: " ++ toString o.length ++ " bibmaps reference non-existent users"] else [])
  ++ (let o := orphanRowsU db.refs_table db.users
      if o ≠ [] then
        ["WARNING: " ++ toString o.length ++ " references reference non-existent users"] else [])
  ++ (let o := orphanRowsTax db.taxonomies db.users
      if o ≠ [] then
        ["WARNING: " ++ toString o.length ++ " taxonomies reference non-existent users"] else [])

/-- The three migration steps of `main`, in order, with the accumulated change
list (`all_changes`). -/
def runMigrations (db : Database) (dry : Bool) : Database × List String :=
  let s1 := migrate_taxonomies db.taxonomies dry
  let s2 := migrate_table_user_id db.bibmaps dry
  let s3 := migrate_table_user_id db.refs_table dry
  ({ db with taxonomies := s1.1, bibmaps := s2.1, refs_table := s3.1 },
   s1.2 ++ s2.2 ++ s3.2)

/-- `main()`: exit 1 before touching anything when the database file is
missing; otherwise run the steps, verify foreign keys on the resulting state,
and return exit code 0 exactly when no issues were found. A dry run closes the
connection without committing, so the file keeps its original state; a live
run commits the migrated state whether or not issues were reported. -/
def mainRun (db_exists : Bool) (db : Database) (dry : Bool) : Nat × Database :=
  if db_exists = false then (1, db)
  else
    let dbAfter := (runMigrations db dry).1
    let issues := verify_foreign_keys dbAfter
    ((if issues = [] then 0 else 1), if dry then db else dbAfter)

/-! ## Concrete sample data for witnesses and counterexamples -/

def taxA : Taxonomy :=
  { id := 1, name := "Methods", color := "#FF0000" }

def taxB : Taxonomy :=
  { id := 2, name := "Theory", color := "#00FF00" }

/-- A reference with every optional field empty, to derive samples from. -/
def baseRef : Reference :=
  { id := 0
    bibtex_key := "base"
    entry_type := "article"
    title := none
    author := none
    year := none
    journal := none
    booktitle := none
    publisher := none
    volume := none
    number := none
    pages := none
    doi := none
    url := none
    abstract := none
    raw_bibtex := "@article"
    extra_fields := none
    legend_category := none
    user_id := none
    taxonomies := [] }

def nodeEmptyColor : Node :=
  { id := 1, bibmap_id := 1, label := "n1", background_color := some "", taxonomies := [] }

def refEmptyLegend : Reference :=
  { baseRef with id := 1, bibtex_key := "k1", legend_category := some "" }

def nodeAbcdef : Node :=
  { id := 2, bibmap_id := 1, label := "n2", background_color := some "#ABCDEF",
    taxonomies := [taxA] }

/-- The stored row for a reference whose legend_category was supplied as
"#abcdef" through a write path (stored uppercased). -/
def refAbcdef : Reference :=
  { baseRef with
    id := 2
    bibtex_key := "k2"
    legend_category := storedLegendOfCreate (some "#abcdef")
    taxonomies := [taxA] }

def aliceUser : User :=
  { id := 7, role := UserRole.user }

def adminUser : User :=
  { id := 1, role := UserRole.admin }

def refOwnedByAlice : Reference :=
  { baseRef with
    id := 3
    bibtex_key := "k3"
    user_id := some 7
    legend_category := some "#ABCDEF"
    taxonomies := [taxA] }

def refOwnedByBob : Reference :=
  { baseRef with
    id := 4
    bibtex_key := "k4"
    user_id := some 8
    legend_category := some "#ABCDEF"
    taxonomies := [taxA] }

def refOwnerless : Reference :=
  { baseRef with
    id := 5
    bibtex_key := "k5"
    user_id := none
    legend_category := some "#ABCDEF"
    taxonomies := [taxA] }

def publishedMap : BibMap :=
  { id := 1, user_id := some 7, is_published := true }

def mediaOwnedByAlice : Media :=
  { id := 1, title := "clip", url := "https://example.org/v", description := none,
    legend_category := some "#ABCDEF", user_id := some 7, taxonomies := [taxA] }

def mediaOwnedByBob : Media :=
  { id := 2, title := "clip2", url := "https://example.org/w", description := none,
    legend_category := some "#ABCDEF", user_id := some 8, taxonomies := [taxA] }

def mediaOwnerless : Media :=
  { id := 3, title := "clip3", url := "https://example.org/x", description := none,
    legend_category := some "#ABCDEF", user_id := none, taxonomies := [taxA] }

/-- A parsed BibTeX entry whose key collides with `refEmptyLegend`. -/
def entryK1 : ParsedEntry :=
  { bibtex_key := "k1"
    entry_type := "article"
    title := some "A duplicate"
    author := none
    year := none
    journal := none
    booktitle := none
    publisher := none
    volume := none
    number := none
    pages := none
    doi := none
    url := none
    abstract := none
    raw_bibtex := "@article k1"
    extra_fields := none }

/-- Exception oracle under which no insert raises. -/
def noRaises : ParsedEntry → Option String := fun _ => none

/-- A taxonomies table in the legacy shape: neither ownership column exists. -/
def taxLegacy : TaxTable :=
  { has_user_id := false
    has_is_global := false
    rows := [{ id := 1, name := "Old", color := some "#123456", user_id := some 3,
               is_global := false }] }

def taxMigrated : TaxTable :=
  { has_user_id := true, has_is_global := true, rows := [] }

/-- A legacy bibmaps table with a VARCHAR(255) user_id column. -/
def bibmapsLegacy : UserTable :=
  { name := "bibmaps"
    user_id_type := some "VARCHAR(255)"
    rows := [{ user_id := SqlVal.text "42", other := [SqlVal.text "map1"] },
             { user_id := SqlVal.null, other := [SqlVal.text "map2"] },
             { user_id := SqlVal.text "", other := [SqlVal.text "map3"] }] }

def refsLegacy : UserTable :=
  { name := "references"
    user_id_type := some "VARCHAR(255)"
    rows := [{ user_id := SqlVal.text "7", other := [] }] }

def dbLegacy : Database :=
  { taxonomies := taxLegacy, bibmaps := bibmapsLegacy, refs_table := refsLegacy,
    users := [42, 7] }

def bibmapsOrphan : UserTable :=
  { name := "bibmaps"
    user_id_type := some "INTEGER"
    rows := [{ user_id := SqlVal.int 99, other := [] }] }

def refsMigrated : UserTable :=
  { name := "references", user_id_type := some "INTEGER", rows := [] }

/-- An already-migrated database whose bibmaps table holds an orphaned
user_id (99), with no users at all. -/
def dbOrphan : Database :=
  { taxonomies := taxMigrated, bibmaps := bibmapsOrphan, refs_table := refsMigrated,
    users := [] }

/-! ## Lemmas about the uppercase embedding -/

theorem upperChar_idem (c : Char) : upperChar (upperChar c) = upperChar c := by
  by_cases h : 97 ≤ c.toNat ∧ c.toNat ≤ 122
  · have h1 : upperChar c = Char.ofNat (c.toNat - 32) := by
      unfold upperChar
      exact if_pos h
    rw [h1]
    obtain ⟨h2, h3⟩ := h
    interval_cases h4 : c.toNat
    all_goals decide
  · have h1 : upperChar c = c := by
      unfold upperChar
      exact if_neg h
    rw [h1, h1]

theorem pyUpper_data (s : String) : (pyUpper s).data = s.data.map upperChar := rfl

theorem pyUpper_idem (s : String) : pyUpper (pyUpper s) = pyUpper s := by
  apply String.ext
  rw [pyUpper_data, pyUpper_data, List.map_map]
  exact List.map_congr_left (fun a _ => upperChar_idem a)

theorem pyUpper_eq_empty_iff (s : String) : pyUpper s = "" ↔ s = "" := by
  constructor
  · intro h
    have hd := congrArg String.data h
    rw [pyUpper_data] at hd
    have hnil : s.data = [] := List.map_eq_nil_iff.mp (by exact hd)
    exact String.ext hnil
  · intro h
    rw [h]
    rfl

theorem pyUpper_default : pyUpper "#3B82F6" = "#3B82F6" := by decide

/-! ## Membership characterization of the matching queries -/

theorem visibilityFilter_sublist (user : Option User) (l : List Reference) :
    (visibilityFilter user l).Sublist l := by
  unfold visibilityFilter
  match user with
  | some u =>
    by_cases h : u.role = UserRole.admin
    · simp [h]
    · simp only [if_neg h]
      exact List.filter_sublist l
  | none => exact List.filter_sublist l

theorem mem_visibilityFilter (user : Option User) (l : List Reference) (r : Reference) :
    r ∈ visibilityFilter user l ↔ r ∈ l ∧ visibleTo user r.user_id = true := by
  unfold visibilityFilter visibleTo
  match user with
  | some u =>
    by_cases h : u.role = UserRole.admin
    · simp [h]
    · have hb : (u.role == UserRole.admin) = false := by
        simp [h]
      simp [if_neg h, List.mem_filter, hb]
  | none => simp [List.mem_filter]

theorem refCondition_of_no_conditions (node : Node) (refs : List Reference) (r : Reference)
    (h1 : (node.taxonomies.map Taxonomy.id).isEmpty = true)
    (h2 : hasLegendMatch node.background_color = false) :
    refCondition node refs r = false := by
  unfold refCondition
  simp [h1, h2]

theorem mem_get_node_references (node : Node) (user : Option User) (refs : List Reference)
    (r : Reference) (mrs : List MatchReason) :
    (r, mrs) ∈ get_node_references node user refs ↔
      r ∈ refs ∧ refCondition node refs r = true ∧ visibleTo user r.user_id = true ∧
        mrs = matchReasons node r := by
  unfold get_node_references
  by_cases hc : (node.taxonomies.map Taxonomy.id).isEmpty = true ∧
      hasLegendMatch node.background_color = false
  · rw [if_pos hc]
    simp only [List.not_mem_nil, false_iff]
    intro ⟨_, habs, _, _⟩
    rw [refCondition_of_no_conditions node refs r hc.1 hc.2] at habs
    exact Bool.false_ne_true habs
  · rw [if_neg hc]
    constructor
    · intro hmem
      obtain ⟨x, hx, hp⟩ := List.mem_map.mp hmem
      have hxr : x = r := congrArg Prod.fst hp
      have hmr : matchReasons node x = mrs := congrArg Prod.snd hp
      subst hxr
      have hrd : x ∈ visibilityFilter user (refs.filter (refCondition node refs)) :=
        List.mem_dedup.mp hx
      obtain ⟨hrf, hvis⟩ := (mem_visibilityFilter user _ x).mp hrd
      obtain ⟨hrl, hcond⟩ := List.mem_filter.mp hrf
      exact ⟨hrl, hcond, hvis, hmr.symm⟩
    · intro ⟨hrl, hcond, hvis, hmr⟩
      apply List.mem_map.mpr
      refine ⟨r, ?_, ?_⟩
      · exact List.mem_dedup.mpr ((mem_visibilityFilter user _ r).mpr
          ⟨List.mem_filter.mpr ⟨hrl, hcond⟩, hvis⟩)
      · rw [← hmr]

/-! ## Match-reason structure lemmas -/

theorem taxonomyReasons_eq (node : Node) (r : Reference) :
    taxonomyReasons node r =
      (sharedTaxonomies node r).map (fun t => MatchReason.taxonomy t.id t.name t.color) := rfl

theorem mem_taxonomyReasons_isLegend (node : Node) (r : Reference) (m : MatchReason)
    (h : m ∈ taxonomyReasons node r) : isLegendReason m = false := by
  rw [taxonomyReasons_eq] at h
  obtain ⟨t, _, ht⟩ := List.mem_map.mp h
  rw [← ht]
  rfl

theorem countP_legend_taxonomyReasons (node : Node) (r : Reference) :
    (taxonomyReasons node r).countP isLegendReason = 0 := by
  rw [List.countP_eq_zero]
  intro m hm
  rw [mem_taxonomyReasons_isLegend node r m hm]
  exact Bool.false_ne_true

theorem countP_tax_taxonomyReasons (node : Node) (r : Reference) :
    (taxonomyReasons node r).countP isTaxonomyReason = (sharedTaxonomies node r).length := by
  rw [taxonomyReasons_eq, List.countP_map]
  have h : (isTaxonomyReason ∘ fun (t : Taxonomy) => MatchReason.taxonomy t.id t.name t.color) =
      fun (_ : Taxonomy) => true := by
    funext t
    rfl
  rw [h]
  simp

theorem nodeColor_some (bg : String) (h : bg ≠ "") :
    nodeColor (some bg) = some (pyUpper bg) := by
  show (if bg = "" then none else some (pyUpper bg)) = some (pyUpper bg)
  rw [if_neg h]

theorem hasLegendMatch_intro (bg : String) (hbg0 : bg ≠ "") (hbgd : pyUpper bg ≠ "#3B82F6") :
    hasLegendMatch (some bg) = true := by
  unfold hasLegendMatch
  rw [nodeColor_some bg hbg0, pyUpper_default]
  exact decide_eq_true hbgd

theorem hasLegendMatch_elim (bgOpt : Option String) (h : hasLegendMatch bgOpt = true) :
    ∃ bg, bgOpt = some bg ∧ bg ≠ "" ∧ pyUpper bg ≠ "#3B82F6" ∧
      nodeColor bgOpt = some (pyUpper bg) := by
  match bgOpt with
  | none => exact absurd h (by decide)
  | some s =>
    by_cases hs : s = ""
    · exfalso
      subst hs
      exact absurd h (by decide)
    · refine ⟨s, rfl, hs, ?_, nodeColor_some s hs⟩
      unfold hasLegendMatch at h
      rw [nodeColor_some s hs, pyUpper_default] at h
      exact of_decide_eq_true h

theorem legendReasons_eq_pos (node : Node) (r : Reference) (bg lc : String)
    (hbg : node.background_color = some bg) (hbg0 : bg ≠ "")
    (hbgd : pyUpper bg ≠ "#3B82F6") (hlc : r.legend_category = some lc)
    (hlc0 : lc ≠ "") (heq : pyUpper lc = pyUpper bg) :
    legendReasons node r = [MatchReason.legend_category lc] := by
  have hlm : hasLegendMatch node.background_color = true := by
    rw [hbg]
    exact hasLegendMatch_intro bg hbg0 hbgd
  have hnc : nodeColor node.background_color = some (pyUpper bg) := by
    rw [hbg]
    exact nodeColor_some bg hbg0
  unfold legendReasons
  rw [hlm]
  simp only [if_true, hlc, hnc]
  rw [if_pos ⟨hlc0, heq⟩]

theorem legendReasons_ne_nil (node : Node) (r : Reference)
    (h : legendReasons node r ≠ []) :
    ∃ bg lc, node.background_color = some bg ∧ bg ≠ "" ∧ pyUpper bg ≠ "#3B82F6" ∧
      r.legend_category = some lc ∧ lc ≠ "" ∧ pyUpper lc = pyUpper bg ∧
      legendReasons node r = [MatchReason.legend_category lc] := by
  by_cases hlm : hasLegendMatch node.background_color = true
  · obtain ⟨bg, hbg, hbg0, hbgd, hnc⟩ := hasLegendMatch_elim node.background_color hlm
    rcases hrl : r.legend_category with _ | lc
    · exfalso
      apply h
      unfold legendReasons
      rw [hlm]
      simp only [if_true, hrl, hnc]
    · by_cases hcond : lc ≠ "" ∧ pyUpper lc = pyUpper bg
      · exact ⟨bg, lc, hbg, hbg0, hbgd, rfl, hcond.1, hcond.2,
          legendReasons_eq_pos node r bg lc hbg hbg0 hbgd hrl hcond.1 hcond.2⟩
      · exfalso
        apply h
        unfold legendReasons
        rw [hlm]
        simp only [if_true, hrl, hnc]
        rw [if_neg]
        intro ⟨h1, h2⟩
        exact hcond ⟨h1, h2⟩
  · exfalso
    apply h
    unfold legendReasons
    simp [hlm]

theorem legendReasons_cases (node : Node) (r : Reference) :
    legendReasons node r = [] ∨
      ∃ lc, legendReasons node r = [MatchReason.legend_category lc] := by
  by_cases h : legendReasons node r = []
  · exact Or.inl h
  · obtain ⟨_, lc, _, _, _, _, _, _, he⟩ := legendReasons_ne_nil node r h
    exact Or.inr ⟨lc, he⟩

theorem countP_legend_matchReasons (node : Node) (r : Reference) :
    (matchReasons node r).countP isLegendReason = (legendReasons node r).length := by
  unfold matchReasons
  rw [List.countP_append, countP_legend_taxonomyReasons]
  rcases legendReasons_cases node r with h | ⟨lc, h⟩ <;> rw [h] <;> rfl

theorem countP_tax_matchReasons (node : Node) (r : Reference) :
    (matchReasons node r).countP isTaxonomyReason = (sharedTaxonomies node r).length := by
  unfold matchReasons
  rw [List.countP_append, countP_tax_taxonomyReasons]
  rcases legendReasons_cases node r with h | ⟨lc, h⟩ <;> rw [h] <;> rfl

/-! ## Claim C1 -/

/-- C1 counterexample: the claim as stated fails at the empty-string corner.
A node whose background_color is the empty string and a visible reference
whose stored legend_category is the empty string (reachable via the update
path, and uppercase-normalized) satisfy the claimed condition — the two values
are case-insensitively equal and differ from the default color — yet the query
returns nothing at all, because Python treats the empty color as falsy and
disables legend matching. -/
theorem C1_counterexample :
    (∃ lc bg, refEmptyLegend.legend_category = some lc ∧
        nodeEmptyColor.background_color = some bg ∧
        pyUpper lc = pyUpper bg ∧ pyUpper bg ≠ "#3B82F6") ∧
    visibleTo none refEmptyLegend.user_id = true ∧
    refEmptyLegend ∈ [refEmptyLegend] ∧
    upperNormalized refEmptyLegend.legend_category = true ∧
    get_node_references nodeEmptyColor none [refEmptyLegend] = [] := by
  exact ⟨⟨"", "", by decide, by decide, by decide, by decide⟩,
    by decide, by decide, by decide, by decide⟩

/-- C1 (amended): for every node and reference visible to the caller whose
stored legend_category is NULL or uppercase-normalized (the write-path
invariant), get_node_references includes the reference with a legend-category
match reason exactly when the reference's legend_category and the node's
background_color are both non-empty, equal case-insensitively, and the node's
color is not the system default #3B82F6 (case-insensitively); an included
reference carries exactly one legend_category match reason, and none when the
condition fails. -/
theorem C1_legend_match (node : Node) (user : Option User) (refs : List Reference)
    (r : Reference) (hr : r ∈ refs) (hvis : visibleTo user r.user_id = true)
    (hnorm : upperNormalized r.legend_category = true) :
    ((∃ mrs, (r, mrs) ∈ get_node_references node user refs ∧
        ∃ m ∈ mrs, isLegendReason m = true) ↔
      (∃ lc bg, r.legend_category = some lc ∧ node.background_color = some bg ∧
        lc ≠ "" ∧ bg ≠ "" ∧ pyUpper lc = pyUpper bg ∧ pyUpper bg ≠ "#3B82F6")) ∧
    (∀ mrs, (r, mrs) ∈ get_node_references node user refs →
      (∃ m ∈ mrs, isLegendReason m = true) → mrs.countP isLegendReason = 1) ∧
    (∀ mrs, (r, mrs) ∈ get_node_references node user refs →
      ¬(∃ lc bg, r.legend_category = some lc ∧ node.background_color = some bg ∧
        lc ≠ "" ∧ bg ≠ "" ∧ pyUpper lc = pyUpper bg ∧ pyUpper bg ≠ "#3B82F6") →
      mrs.countP isLegendReason = 0) := by
  have hforward : ∀ mrs, (r, mrs) ∈ get_node_references node user refs →
      (∃ m ∈ mrs, isLegendReason m = true) →
      ∃ lc bg, r.legend_category = some lc ∧ node.background_color = some bg ∧
        lc ≠ "" ∧ bg ≠ "" ∧ pyUpper lc = pyUpper bg ∧ pyUpper bg ≠ "#3B82F6" := by
    intro mrs hmem hex
    have hchar := (mem_get_node_references node user refs r mrs).mp hmem
    obtain ⟨m, hm, hleg⟩ := hex
    rw [hchar.2.2.2] at hm
    unfold matchReasons at hm
    rcases List.mem_append.mp hm with hmt | hml
    · rw [mem_taxonomyReasons_isLegend node r m hmt] at hleg
      exact absurd hleg (by decide)
    · have hne : legendReasons node r ≠ [] := by
        intro h0
        rw [h0] at hml
        exact List.not_mem_nil m hml
      obtain ⟨bg, lc, hbg, hbg0, hbgd, hlc, hlc0, heq, _⟩ := legendReasons_ne_nil node r hne
      exact ⟨lc, bg, hlc, hbg, hlc0, hbg0, heq, hbgd⟩
  refine ⟨⟨fun ⟨mrs, hmem, hex⟩ => hforward mrs hmem hex, ?_⟩, ?_, ?_⟩
  · intro ⟨lc, bg, hlc, hbg, hlc0, hbg0, heq, hbgd⟩
    have hnormlc : pyUpper lc = lc := by
      rw [hlc] at hnorm
      exact eq_of_beq hnorm
    have hcond : refCondition node refs r = true := by
      have hlmT : hasLegendMatch node.background_color = true := by
        rw [hbg]
        exact hasLegendMatch_intro bg hbg0 hbgd
      have hnc : nodeColor node.background_color = some (pyUpper bg) := by
        rw [hbg]
        exact nodeColor_some bg hbg0
      have hlceq : (lc == pyUpper bg) = true := beq_iff_eq.mpr (by rw [← hnormlc, heq])
      simp only [refCondition, hlmT, hnc, hlc, hlceq, Bool.true_and, Bool.and_true,
        Bool.or_true]
    have hmem : (r, matchReasons node r) ∈ get_node_references node user refs :=
      (mem_get_node_references node user refs r (matchReasons node r)).mpr
        ⟨hr, hcond, hvis, rfl⟩
    refine ⟨matchReasons node r, hmem, MatchReason.legend_category lc, ?_, rfl⟩
    unfold matchReasons
    apply List.mem_append.mpr
    right
    rw [legendReasons_eq_pos node r bg lc hbg hbg0 hbgd hlc hlc0 heq]
    exact List.mem_singleton_self _
  · intro mrs hmem hex
    have hchar := (mem_get_node_references node user refs r mrs).mp hmem
    obtain ⟨m, hm, hleg⟩ := hex
    rw [hchar.2.2.2] at hm
    rw [hchar.2.2.2, countP_legend_matchReasons]
    unfold matchReasons at hm
    rcases List.mem_append.mp hm with hmt | hml
    · rw [mem_taxonomyReasons_isLegend node r m hmt] at hleg
      exact absurd hleg (by decide)
    · rcases legendReasons_cases node r with h0 | ⟨lc, h1⟩
      · rw [h0] at hml
        exact absurd hml (List.not_mem_nil m)
      · rw [h1]
        rfl
  · intro mrs hmem hncond
    have hchar := (mem_get_node_references node user refs r mrs).mp hmem
    rw [hchar.2.2.2, countP_legend_matchReasons]
    rcases legendReasons_cases node r with h0 | ⟨lc, h1⟩
    · rw [h0]
      rfl
    · exfalso
      apply hncond
      have hne : legendReasons node r ≠ [] := by
        rw [h1]
        exact List.cons_ne_nil _ _
      obtain ⟨bg, lc', hbg, hbg0, hbgd, hlc, hlc0, heq, _⟩ := legendReasons_ne_nil node r hne
      exact ⟨lc', bg, hlc, hbg, hlc0, hbg0, heq, hbgd⟩

/-- C1 witness: the spec's own example. A node colored "#ABCDEF" and a
reference whose legend_category was supplied as "#abcdef" (stored through the
create path, hence "#ABCDEF"): the reference is returned with a legend
match reason. -/
theorem C1_witness :
    ∃ mrs, (refAbcdef, mrs) ∈ get_node_references nodeAbcdef none [refAbcdef] ∧
      ∃ m ∈ mrs, isLegendReason m = true :=
  (C1_legend_match nodeAbcdef none [refAbcdef] refAbcdef (by decide) (by decide)
      (by decide)).1.mpr
    ⟨"#ABCDEF", "#ABCDEF", by decide, by decide, by decide, by decide, by decide, by decide⟩

/-! ## Claim C2 -/

/-- C2: a reference that both shares at least one taxonomy with the node and
carries the node's (non-default, normalized) color as legend_category is
returned exactly once — results are distinct by id, assuming the reference
table's ids are unique — and its match_reasons consist of one taxonomy reason
per shared taxonomy plus one legend_category reason, in particular
|shared| + 1 reasons in total. -/
theorem C2_double_match (node : Node) (user : Option User) (refs : List Reference)
    (r : Reference) (hr : r ∈ refs) (hvis : visibleTo user r.user_id = true)
    (hids : (refs.map Reference.id).Nodup)
    (bg : String) (hbg : node.background_color = some bg) (hbg0 : bg ≠ "")
    (hbgd : pyUpper bg ≠ "#3B82F6") (hlc : r.legend_category = some (pyUpper bg))
    (hshared : sharedTaxonomies node r ≠ []) :
    ((get_node_references node user refs).countP (fun p => p.1.id == r.id) = 1) ∧
    (∀ mrs, (r, mrs) ∈ get_node_references node user refs →
      mrs.countP isTaxonomyReason = (sharedTaxonomies node r).length ∧
      mrs.countP isLegendReason = 1 ∧
      mrs.length = (sharedTaxonomies node r).length + 1) := by
  have hlc0 : pyUpper bg ≠ "" := fun h0 => hbg0 ((pyUpper_eq_empty_iff bg).mp h0)
  have heq : pyUpper (pyUpper bg) = pyUpper bg := pyUpper_idem bg
  have hlm : hasLegendMatch node.background_color = true := by
    rw [hbg]
    exact hasLegendMatch_intro bg hbg0 hbgd
  have hnc : nodeColor node.background_color = some (pyUpper bg) := by
    rw [hbg]
    exact nodeColor_some bg hbg0
  have hleg : legendReasons node r = [MatchReason.legend_category (pyUpper bg)] :=
    legendReasons_eq_pos node r bg (pyUpper bg) hbg hbg0 hbgd hlc hlc0 heq
  have hcond : refCondition node refs r = true := by
    have hlceq : (pyUpper bg == pyUpper bg) = true := beq_iff_eq.mpr rfl
    simp only [refCondition, hlm, hnc, hlc, hlceq, Bool.true_and, Bool.and_true, Bool.or_true]
  have hnotempty : ¬((node.taxonomies.map Taxonomy.id).isEmpty = true ∧
      hasLegendMatch node.background_color = false) := by
    intro ⟨_, h2⟩
    rw [hlm] at h2
    exact absurd h2 (by decide)
  have hresult : get_node_references node user refs =
      ((visibilityFilter user (refs.filter (refCondition node refs))).dedup).map
        (fun x => (x, matchReasons node x)) := by
    unfold get_node_references
    rw [if_neg hnotempty]
  have hsub : List.Sublist (visibilityFilter user (refs.filter (refCondition node refs))) refs :=
    (visibilityFilter_sublist user _).trans (List.filter_sublist refs)
  have hidsl : ((visibilityFilter user (refs.filter (refCondition node refs))).map
      Reference.id).Nodup := hids.sublist (hsub.map Reference.id)
  have hndl : (visibilityFilter user (refs.filter (refCondition node refs))).Nodup :=
    List.Nodup.of_map Reference.id hidsl
  have hded : (visibilityFilter user (refs.filter (refCondition node refs))).dedup =
      visibilityFilter user (refs.filter (refCondition node refs)) :=
    List.Nodup.dedup hndl
  have hrl : r ∈ visibilityFilter user (refs.filter (refCondition node refs)) :=
    (mem_visibilityFilter user _ r).mpr ⟨List.mem_filter.mpr ⟨hr, hcond⟩, hvis⟩
  constructor
  · rw [hresult, hded, List.countP_map]
    have hcomp : ((fun p : Reference × List MatchReason => p.1.id == r.id) ∘
        (fun x => (x, matchReasons node x))) = ((· == r.id) ∘ Reference.id) := by
      funext x
      rfl
    rw [hcomp, ← List.countP_map, ← List.count_eq_countP]
    exact List.count_eq_one_of_mem hidsl (List.mem_map_of_mem Reference.id hrl)
  · intro mrs hmem
    have hchar := (mem_get_node_references node user refs r mrs).mp hmem
    rw [hchar.2.2.2]
    refine ⟨countP_tax_matchReasons node r, ?_, ?_⟩
    · rw [countP_legend_matchReasons, hleg]
      rfl
    · unfold matchReasons
      rw [List.length_append, taxonomyReasons_eq, List.length_map, hleg]
      rfl

/-- C2 witness: a node with one taxonomy and color "#ABCDEF", and an ownerless
reference carrying the same taxonomy and the normalized legend "#ABCDEF",
queried anonymously: exactly one result row with exactly two match reasons. -/
theorem C2_witness :
    ((get_node_references nodeAbcdef none [refAbcdef]).countP
      (fun p => p.1.id == refAbcdef.id) = 1) ∧
    (∀ mrs, (refAbcdef, mrs) ∈ get_node_references nodeAbcdef none [refAbcdef] →
      mrs.countP isTaxonomyReason = (sharedTaxonomies nodeAbcdef refAbcdef).length ∧
      mrs.countP isLegendReason = 1 ∧
      mrs.length = (sharedTaxonomies nodeAbcdef refAbcdef).length + 1) :=
  C2_double_match nodeAbcdef none [refAbcdef] refAbcdef (by decide) (by decide) (by decide)
    "#ABCDEF" (by decide) (by decide) (by decide) (by decide) (by decide)

/-! ## Membership lemmas for the public and media variants -/

theorem mem_public_node_references (node : Node) (bibmap : BibMap) (refs : List Reference)
    (r : Reference) (mrs : List MatchReason) :
    (r, mrs) ∈ public_node_references node bibmap refs ↔
      r ∈ refs ∧ refCondition node refs r = true ∧ r.user_id = bibmap.user_id ∧
        mrs = matchReasons node r := by
  unfold public_node_references
  by_cases hc : (node.taxonomies.map Taxonomy.id).isEmpty = true ∧
      hasLegendMatch node.background_color = false
  · rw [if_pos hc]
    simp only [List.not_mem_nil, false_iff]
    intro ⟨_, habs, _, _⟩
    rw [refCondition_of_no_conditions node refs r hc.1 hc.2] at habs
    exact Bool.false_ne_true habs
  · rw [if_neg hc]
    constructor
    · intro hmem
      obtain ⟨x, hx, hp⟩ := List.mem_map.mp hmem
      have hxr : x = r := congrArg Prod.fst hp
      have hmr : matchReasons node x = mrs := congrArg Prod.snd hp
      subst hxr
      obtain ⟨hxl, hcond⟩ := List.mem_filter.mp (List.mem_dedup.mp hx)
      obtain ⟨h1, h2⟩ := Bool.and_eq_true_iff.mp hcond
      exact ⟨hxl, h1, eq_of_beq h2, hmr.symm⟩
    · intro ⟨hrl, hcond, huid, hmr⟩
      apply List.mem_map.mpr
      refine ⟨r, ?_, by rw [← hmr]⟩
      apply List.mem_dedup.mpr
      apply List.mem_filter.mpr
      exact ⟨hrl, Bool.and_eq_true_iff.mpr ⟨hcond, beq_iff_eq.mpr huid⟩⟩

theorem mediaCondition_of_no_conditions (node : Node) (items : List Media) (m : Media)
    (h1 : (node.taxonomies.map Taxonomy.id).isEmpty = true)
    (h2 : hasLegendMatch node.background_color = false) :
    mediaCondition node items m = false := by
  unfold mediaCondition
  simp [h1, h2]

theorem mem_mediaVisibilityFilter (user : Option User) (l : List Media) (m : Media) :
    m ∈ mediaVisibilityFilter user l ↔ m ∈ l ∧ visibleTo user m.user_id = true := by
  unfold mediaVisibilityFilter visibleTo
  match user with
  | some u =>
    by_cases h : u.role = UserRole.admin
    · simp [h]
    · have hb : (u.role == UserRole.admin) = false := by
        simp [h]
      simp [if_neg h, List.mem_filter, hb]
  | none => simp [List.mem_filter]

theorem mem_get_node_media (node : Node) (user : Option User) (items : List Media)
    (m : Media) (mrs : List MatchReason) :
    (m, mrs) ∈ get_node_media node user items ↔
      m ∈ items ∧ mediaCondition node items m = true ∧ visibleTo user m.user_id = true ∧
        mrs = mediaMatchReasons node m := by
  unfold get_node_media
  by_cases hc : (node.taxonomies.map Taxonomy.id).isEmpty = true ∧
      hasLegendMatch node.background_color = false
  · rw [if_pos hc]
    simp only [List.not_mem_nil, false_iff]
    intro ⟨_, habs, _, _⟩
    rw [mediaCondition_of_no_conditions node items m hc.1 hc.2] at habs
    exact Bool.false_ne_true habs
  · rw [if_neg hc]
    constructor
    · intro hmem
      obtain ⟨x, hx, hp⟩ := List.mem_map.mp hmem
      have hxr : x = m := congrArg Prod.fst hp
      have hmr : mediaMatchReasons node x = mrs := congrArg Prod.snd hp
      subst hxr
      obtain ⟨hxf, hvis⟩ := (mem_mediaVisibilityFilter user _ x).mp (List.mem_dedup.mp hx)
      obtain ⟨hxl, hcond⟩ := List.mem_filter.mp hxf
      exact ⟨hxl, hcond, hvis, hmr.symm⟩
    · intro ⟨hrl, hcond, hvis, hmr⟩
      apply List.mem_map.mpr
      refine ⟨m, ?_, by rw [← hmr]⟩
      exact List.mem_dedup.mpr ((mem_mediaVisibilityFilter user _ m).mpr
        ⟨List.mem_filter.mpr ⟨hrl, hcond⟩, hvis⟩)

theorem mem_public_node_media (node : Node) (bibmap : BibMap) (items : List Media)
    (m : Media) (mrs : List MatchReason) :
    (m, mrs) ∈ public_node_media node bibmap items ↔
      m ∈ items ∧ mediaCondition node items m = true ∧ m.user_id = bibmap.user_id ∧
        mrs = mediaMatchReasons node m := by
  unfold public_node_media
  by_cases hc : (node.taxonomies.map Taxonomy.id).isEmpty = true ∧
      hasLegendMatch node.background_color = false
  · rw [if_pos hc]
    simp only [List.not_mem_nil, false_iff]
    intro ⟨_, habs, _, _⟩
    rw [mediaCondition_of_no_conditions node items m hc.1 hc.2] at habs
    exact Bool.false_ne_true habs
  · rw [if_neg hc]
    constructor
    · intro hmem
      obtain ⟨x, hx, hp⟩ := List.mem_map.mp hmem
      have hxr : x = m := congrArg Prod.fst hp
      have hmr : mediaMatchReasons node x = mrs := congrArg Prod.snd hp
      subst hxr
      obtain ⟨hxl, hcond⟩ := List.mem_filter.mp (List.mem_dedup.mp hx)
      obtain ⟨h1, h2⟩ := Bool.and_eq_true_iff.mp hcond
      exact ⟨hxl, h1, eq_of_beq h2, hmr.symm⟩
    · intro ⟨hrl, hcond, huid, hmr⟩
      apply List.mem_map.mpr
      refine ⟨m, ?_, by rw [← hmr]⟩
      apply List.mem_dedup.mpr
      apply List.mem_filter.mpr
      exact ⟨hrl, Bool.and_eq_true_iff.mpr ⟨hcond, beq_iff_eq.mpr huid⟩⟩

theorem visibleTo_nonadmin (u : User) (uid : Option Nat) (hadmin : u.role ≠ UserRole.admin)
    (h : visibleTo (some u) uid = true) : uid = some u.id := by
  have hb : (u.role == UserRole.admin) = false := by
    simp [hadmin]
  have h2 : (u.role == UserRole.admin || uid == some u.id) = true := h
  rw [hb, Bool.false_or] at h2
  exact eq_of_beq h2

theorem visibleTo_anonymous (uid : Option Nat) (h : visibleTo none uid = true) : uid = none :=
  eq_of_beq h

/-! ## Claim C3 -/

/-- C3: the ownership filter composes with matching, for references and media
alike. A non-admin authenticated caller only receives rows they own; an
anonymous caller only receives ownerless rows; for an admin no ownership filter
is applied (the result is exactly the match-filtered, deduplicated table); and
the public variants, which succeed only for a published map, return only rows
owned by the map's owner, regardless of requester. -/
theorem C3_ownership_filter :
    (∀ (node : Node) (u : User) (refs : List Reference) (r : Reference)
        (mrs : List MatchReason), u.role ≠ UserRole.admin →
      (r, mrs) ∈ get_node_references node (some u) refs → r.user_id = some u.id) ∧
    (∀ (node : Node) (refs : List Reference) (r : Reference) (mrs : List MatchReason),
      (r, mrs) ∈ get_node_references node none refs → r.user_id = none) ∧
    (∀ (node : Node) (u : User) (refs : List Reference), u.role = UserRole.admin →
      get_node_references node (some u) refs =
        ((refs.filter (refCondition node refs)).dedup).map
          (fun x => (x, matchReasons node x))) ∧
    (∀ (node : Node) (bibmap : BibMap) (refs : List Reference) (r : Reference)
        (mrs : List MatchReason),
      (r, mrs) ∈ public_node_references node bibmap refs → r.user_id = bibmap.user_id) ∧
    (∀ (node_id : Nat) (nodes : List Node) (bibmaps : List BibMap) (refs : List Reference)
        (out : List (Reference × List MatchReason)),
      get_public_node_references node_id nodes bibmaps refs = Except.ok out →
      ∃ node bibmap, nodes.find? (fun n => n.id == node_id) = some node ∧
        bibmaps.find? (fun b => b.id == node.bibmap_id) = some bibmap ∧
        bibmap.is_published = true ∧ out = public_node_references node bibmap refs) ∧
    (∀ (node : Node) (u : User) (items : List Media) (m : Media)
        (mrs : List MatchReason), u.role ≠ UserRole.admin →
      (m, mrs) ∈ get_node_media node (some u) items → m.user_id = some u.id) ∧
    (∀ (node : Node) (items : List Media) (m : Media) (mrs : List MatchReason),
      (m, mrs) ∈ get_node_media node none items → m.user_id = none) ∧
    (∀ (node : Node) (u : User) (items : List Media), u.role = UserRole.admin →
      get_node_media node (some u) items =
        ((items.filter (mediaCondition node items)).dedup).map
          (fun x => (x, mediaMatchReasons node x))) ∧
    (∀ (node : Node) (bibmap : BibMap) (items : List Media) (m : Media)
        (mrs : List MatchReason),
      (m, mrs) ∈ public_node_media node bibmap items → m.user_id = bibmap.user_id) ∧
    (∀ (node_id : Nat) (nodes : List Node) (bibmaps : List BibMap) (items : List Media)
        (out : List (Media × List MatchReason)),
      get_public_node_media node_id nodes bibmaps items = Except.ok out →
      ∃ node bibmap, nodes.find? (fun n => n.id == node_id) = some node ∧
        bibmaps.find? (fun b => b.id == node.bibmap_id) = some bibmap ∧
        bibmap.is_published = true ∧ out = public_node_media node bibmap items) := by
  refine ⟨?_, ?_, ?_, ?_, ?_, ?_, ?_, ?_, ?_, ?_⟩
  · intro node u refs r mrs hadmin hmem
    exact visibleTo_nonadmin u r.user_id hadmin
      ((mem_get_node_references node (some u) refs r mrs).mp hmem).2.2.1
  · intro node refs r mrs hmem
    exact visibleTo_anonymous r.user_id
      ((mem_get_node_references node none refs r mrs).mp hmem).2.2.1
  · intro node u refs hadmin
    unfold get_node_references
    by_cases hc : (node.taxonomies.map Taxonomy.id).isEmpty = true ∧
        hasLegendMatch node.background_color = false
    · rw [if_pos hc]
      have hfil : refs.filter (refCondition node refs) = [] :=
        List.filter_eq_nil_iff.mpr (fun a _ => by
          rw [refCondition_of_no_conditions node refs a hc.1 hc.2]
          exact Bool.false_ne_true)
      rw [hfil]
      rfl
    · rw [if_neg hc]
      have hv : visibilityFilter (some u) (refs.filter (refCondition node refs)) =
          refs.filter (refCondition node refs) := by
        show (if u.role = UserRole.admin then refs.filter (refCondition node refs)
          else (refs.filter (refCondition node refs)).filter
            (fun r => r.user_id == some u.id)) = refs.filter (refCondition node refs)
        rw [if_pos hadmin]
      rw [hv]
  · intro node bibmap refs r mrs hmem
    exact ((mem_public_node_references node bibmap refs r mrs).mp hmem).2.2.1
  · intro node_id nodes bibmaps refs out h
    unfold get_public_node_references at h
    split at h
    · exact Except.noConfusion h
    · rename_i node hf
      split at h
      · exact Except.noConfusion h
      · rename_i bibmap hg
        split at h
        · exact Except.noConfusion h
        · rename_i hp
          injection h with h1
          have hpub : bibmap.is_published = true := by
            revert hp
            cases bibmap.is_published <;> simp
          exact ⟨node, bibmap, hf, hg, hpub, h1.symm⟩
  · intro node u items m mrs hadmin hmem
    exact visibleTo_nonadmin u m.user_id hadmin
      ((mem_get_node_media node (some u) items m mrs).mp hmem).2.2.1
  · intro node items m mrs hmem
    exact visibleTo_anonymous m.user_id
      ((mem_get_node_media node none items m mrs).mp hmem).2.2.1
  · intro node u items hadmin
    unfold get_node_media
    by_cases hc : (node.taxonomies.map Taxonomy.id).isEmpty = true ∧
        hasLegendMatch node.background_color = false
    · rw [if_pos hc]
      have hfil : items.filter (mediaCondition node items) = [] :=
        List.filter_eq_nil_iff.mpr (fun a _ => by
          rw [mediaCondition_of_no_conditions node items a hc.1 hc.2]
          exact Bool.false_ne_true)
      rw [hfil]
      rfl
    · rw [if_neg hc]
      have hv : mediaVisibilityFilter (some u) (items.filter (mediaCondition node items)) =
          items.filter (mediaCondition node items) := by
        show (if u.role = UserRole.admin then items.filter (mediaCondition node items)
          else (items.filter (mediaCondition node items)).filter
            (fun m => m.user_id == some u.id)) = items.filter (mediaCondition node items)
        rw [if_pos hadmin]
      rw [hv]
  · intro node bibmap items m mrs hmem
    exact ((mem_public_node_media node bibmap items m mrs).mp hmem).2.2.1
  · intro node_id nodes bibmaps items out h
    unfold get_public_node_media at h
    split at h
    · exact Except.noConfusion h
    · rename_i node hf
      split at h
      · exact Except.noConfusion h
      · rename_i bibmap hg
        split at h
        · exact Except.noConfusion h
        · rename_i hp
          injection h with h1
          have hpub : bibmap.is_published = true := by
            revert hp
            cases bibmap.is_published <;> simp
          exact ⟨node, bibmap, hf, hg, hpub, h1.symm⟩

/-- C3 witness: concrete checks of each branch of the ownership filter — a
non-admin caller's result row is their own, an anonymous caller's row is
ownerless, the admin query equals the unfiltered match result, and a public
query row belongs to the published map's owner. -/
theorem C3_witness :
    refOwnedByAlice.user_id = some aliceUser.id ∧
    refOwnerless.user_id = (none : Option Nat) ∧
    get_node_references nodeAbcdef (some adminUser) [refOwnedByAlice, refOwnedByBob] =
      (([refOwnedByAlice, refOwnedByBob].filter
          (refCondition nodeAbcdef [refOwnedByAlice, refOwnedByBob])).dedup).map
        (fun x => (x, matchReasons nodeAbcdef x)) ∧
    refOwnedByAlice.user_id = publishedMap.user_id ∧
    mediaOwnedByAlice.user_id = some aliceUser.id := by
  refine ⟨?_, ?_, ?_, ?_, ?_⟩
  · exact C3_ownership_filter.1 nodeAbcdef aliceUser [refOwnedByAlice, refOwnedByBob]
      refOwnedByAlice (matchReasons nodeAbcdef refOwnedByAlice) (by decide) (by decide)
  · exact C3_ownership_filter.2.1 nodeAbcdef [refOwnerless, refOwnedByBob]
      refOwnerless (matchReasons nodeAbcdef refOwnerless) (by decide)
  · exact C3_ownership_filter.2.2.1 nodeAbcdef adminUser [refOwnedByAlice, refOwnedByBob]
      (by decide)
  · exact C3_ownership_filter.2.2.2.1 nodeAbcdef publishedMap
      [refOwnedByAlice, refOwnedByBob] refOwnedByAlice
      (matchReasons nodeAbcdef refOwnedByAlice) (by decide)
  · exact C3_ownership_filter.2.2.2.2.2.1 nodeAbcdef aliceUser
      [mediaOwnedByAlice, mediaOwnedByBob] mediaOwnedByAlice
      (mediaMatchReasons nodeAbcdef mediaOwnedByAlice) (by decide) (by decide)

/-! ## Import-loop lemmas -/

theorem importLoop_invariant (legend : Option String) (taxonomies : List Taxonomy)
    (user : Option User) (raises : ParsedEntry → Option String) :
    ∀ (entries : List ParsedEntry) (newId : Nat) (db imported : List Reference)
      (errors : List String),
      ∃ new, (importLoop legend taxonomies user raises entries newId db imported errors).1 =
          db ++ new ∧
        (importLoop legend taxonomies user raises entries newId db imported errors).2.1 =
          imported ++ new ∧
        (∀ r ∈ new, r.legend_category = storedLegendOfCreate legend) := by
  intro entries
  induction entries with
  | nil =>
    intro newId db imported errors
    exact ⟨[], by simp [importLoop], by simp [importLoop], by simp⟩
  | cons e rest ih =>
    intro newId db imported errors
    by_cases hdup : db.any (fun r => r.bibtex_key == e.bibtex_key) = true
    · have hstep : importLoop legend taxonomies user raises (e :: rest) newId db imported errors =
          importLoop legend taxonomies user raises rest newId db imported
            (errors ++ ["Skipped duplicate: " ++ e.bibtex_key]) := by
        simp [importLoop, hdup]
      rw [hstep]
      exact ih newId db imported (errors ++ ["Skipped duplicate: " ++ e.bibtex_key])
    · cases hr : raises e with
      | some msg =>
        have hstep : importLoop legend taxonomies user raises (e :: rest) newId db imported
            errors = importLoop legend taxonomies user raises rest newId db imported
              (errors ++ ["Error importing " ++ e.bibtex_key ++ ": " ++ msg]) := by
          simp [importLoop, hdup, hr]
        rw [hstep]
        exact ih newId db imported (errors ++ ["Error importing " ++ e.bibtex_key ++ ": " ++ msg])
      | none =>
        have hstep : importLoop legend taxonomies user raises (e :: rest) newId db imported
            errors = importLoop legend taxonomies user raises rest (newId + 1)
              (db ++ [refOfEntry e newId legend taxonomies user])
              (imported ++ [refOfEntry e newId legend taxonomies user]) errors := by
          simp [importLoop, hdup, hr]
        rw [hstep]
        obtain ⟨new, h1, h2, h3⟩ := ih (newId + 1)
          (db ++ [refOfEntry e newId legend taxonomies user])
          (imported ++ [refOfEntry e newId legend taxonomies user]) errors
        refine ⟨refOfEntry e newId legend taxonomies user :: new, ?_, ?_, ?_⟩
        · rw [h1, List.append_assoc]
          rfl
        · rw [h2, List.append_assoc]
          rfl
        · intro r hrm
          rcases List.mem_cons.mp hrm with hre | hrn
          · rw [hre]
            rfl
          · exact h3 r hrn

/-! ## Claim C9 -/

/-- C9: per-entry error handling of the BibTeX import. (i) An import of a
single entry whose bibtex_key already exists yields imported = 0, the error
string "Skipped duplicate: key", and an unchanged database. (ii) A duplicate
entry at the head of the loop only records its error and the loop continues on
the remaining entries. (iii) A raising insert is caught the same way, with an
"Error importing ..." string, and the loop continues. (iv) The final database
is the initial one plus exactly the successfully imported rows (each committed
as inserted, so they survive later failures), and the reported count is the
number of those rows. -/
theorem C9_import_error_handling :
    (∀ (e : ParsedEntry) (parse_errors : List String) (legend : Option String)
        (taxTable : List Taxonomy) (taxonomy_ids : List Nat) (user : Option User)
        (raises : ParsedEntry → Option String) (newId : Nat) (db : List Reference),
      db.any (fun r => r.bibtex_key == e.bibtex_key) = true →
      import_bibtex [e] parse_errors legend taxTable taxonomy_ids user raises newId db =
        ({ imported := 0,
           errors := parse_errors ++ ["Skipped duplicate: " ++ e.bibtex_key],
           references := [] }, db)) ∧
    (∀ (e : ParsedEntry) (rest : List ParsedEntry) (legend : Option String)
        (taxonomies : List Taxonomy) (user : Option User)
        (raises : ParsedEntry → Option String) (newId : Nat)
        (db imported : List Reference) (errors : List String),
      db.any (fun r => r.bibtex_key == e.bibtex_key) = true →
      importLoop legend taxonomies user raises (e :: rest) newId db imported errors =
        importLoop legend taxonomies user raises rest newId db imported
          (errors ++ ["Skipped duplicate: " ++ e.bibtex_key])) ∧
    (∀ (e : ParsedEntry) (rest : List ParsedEntry) (legend : Option String)
        (taxonomies : List Taxonomy) (user : Option User)
        (raises : ParsedEntry → Option String) (msg : String) (newId : Nat)
        (db imported : List Reference) (errors : List String),
      db.any (fun r => r.bibtex_key == e.bibtex_key) = false → raises e = some msg →
      importLoop legend taxonomies user raises (e :: rest) newId db imported errors =
        importLoop legend taxonomies user raises rest newId db imported
          (errors ++ ["Error importing " ++ e.bibtex_key ++ ": " ++ msg])) ∧
    (∀ (entries : List ParsedEntry) (parse_errors : List String) (legend : Option String)
        (taxTable : List Taxonomy) (taxonomy_ids : List Nat) (user : Option User)
        (raises : ParsedEntry → Option String) (newId : Nat) (db : List Reference),
      (import_bibtex entries parse_errors legend taxTable taxonomy_ids user raises newId db).2 =
        db ++ (import_bibtex entries parse_errors legend taxTable taxonomy_ids user raises
          newId db).1.references ∧
      (import_bibtex entries parse_errors legend taxTable taxonomy_ids user raises
          newId db).1.imported =
        (import_bibtex entries parse_errors legend taxTable taxonomy_ids user raises
          newId db).1.references.length) := by
  refine ⟨?_, ?_, ?_, ?_⟩
  · intro e parse_errors legend taxTable taxonomy_ids user raises newId db hdup
    simp only [import_bibtex]
    have hstep : importLoop legend (taxTable.filter (fun t => taxonomy_ids.contains t.id))
        user raises [e] newId db [] parse_errors =
        importLoop legend (taxTable.filter (fun t => taxonomy_ids.contains t.id))
          user raises [] newId db [] (parse_errors ++ ["Skipped duplicate: " ++ e.bibtex_key]) := by
      simp [importLoop, hdup]
    rw [hstep]
    rfl
  · intro e rest legend taxonomies user raises newId db imported errors hdup
    simp [importLoop, hdup]
  · intro e rest legend taxonomies user raises msg newId db imported errors hdup hr
    simp [importLoop, hdup, hr]
  · intro entries parse_errors legend taxTable taxonomy_ids user raises newId db
    obtain ⟨new, h1, h2, _⟩ := importLoop_invariant legend
      (taxTable.filter (fun t => taxonomy_ids.contains t.id)) user raises entries newId db []
      parse_errors
    constructor
    · show (importLoop legend (taxTable.filter (fun t => taxonomy_ids.contains t.id))
          user raises entries newId db [] parse_errors).1 = db ++ _
      rw [h1]
      congr 1
      show new = (importLoop legend (taxTable.filter (fun t => taxonomy_ids.contains t.id))
          user raises entries newId db [] parse_errors).2.1
      rw [h2]
      rfl
    · rfl

/-- C9 witness: importing the single entry with key "k1" into a database
already holding a reference keyed "k1" yields imported = 0, the skip error,
and the untouched database. -/
theorem C9_witness :
    import_bibtex [entryK1] [] none [] [] none noRaises 10 [refEmptyLegend] =
      ({ imported := 0, errors := ["Skipped duplicate: k1"], references := [] },
       [refEmptyLegend]) :=
  C9_import_error_handling.1 entryK1 [] none [] [] none noRaises 10 [refEmptyLegend] (by decide)

/-! ## Claim C10 -/

/-- C10: the write-path invariant — every legend_category stored through
create_reference, import_bibtex, update_reference or create_media (and
update_media) is NULL or equal to its own uppercasing. Pre-existing rows are
left alone by the update path only if they already satisfy the invariant,
which every creation path establishes. -/
theorem C10_legend_normalized :
    (∀ input, upperNormalized (storedLegendOfCreate input) = true) ∧
    (∀ provided old, upperNormalized old = true →
      upperNormalized (storedLegendOfUpdate provided old) = true) ∧
    (∀ (input : ReferenceCreate) (user : Option User) (taxTable : List Taxonomy)
        (newId : Nat) (db db' : List Reference),
      create_reference input user taxTable newId db = Except.ok db' →
      ∀ r ∈ db', r ∈ db ∨ upperNormalized r.legend_category = true) ∧
    (∀ (entries : List ParsedEntry) (parse_errors : List String) (legend : Option String)
        (taxTable : List Taxonomy) (taxonomy_ids : List Nat) (user : Option User)
        (raises : ParsedEntry → Option String) (newId : Nat) (db : List Reference),
      (∀ r ∈ (import_bibtex entries parse_errors legend taxTable taxonomy_ids user raises
          newId db).2, r ∈ db ∨ upperNormalized r.legend_category = true) ∧
      (∀ r ∈ (import_bibtex entries parse_errors legend taxTable taxonomy_ids user raises
          newId db).1.references, upperNormalized r.legend_category = true)) ∧
    (∀ (upd : ReferenceUpdate) (taxTable : List Taxonomy) (r : Reference),
      upperNormalized r.legend_category = true →
      upperNormalized (applyReferenceUpdate upd taxTable r).legend_category = true) ∧
    (∀ (input : MediaCreate) (user : Option User) (taxTable : List Taxonomy)
        (newId : Nat) (db : List Media),
      ∀ m ∈ create_media input user taxTable newId db,
        m ∈ db ∨ upperNormalized m.legend_category = true) ∧
    (∀ (upd : MediaUpdate) (taxTable : List Taxonomy) (m : Media),
      upperNormalized m.legend_category = true →
      upperNormalized (applyMediaUpdate upd taxTable m).legend_category = true) := by
  have hcreate : ∀ input, upperNormalized (storedLegendOfCreate input) = true := by
    intro input
    match input with
    | none => rfl
    | some s =>
      by_cases hs : s = ""
      · subst hs
        decide
      · have hred : storedLegendOfCreate (some s) = some (pyUpper s) := by
          show (if s = "" then none else some (pyUpper s)) = some (pyUpper s)
          rw [if_neg hs]
        rw [hred]
        show (pyUpper (pyUpper s) == pyUpper s) = true
        exact beq_iff_eq.mpr (pyUpper_idem s)
  have hupdate : ∀ provided old, upperNormalized old = true →
      upperNormalized (storedLegendOfUpdate provided old) = true := by
    intro provided old hold
    match provided with
    | none => exact hold
    | some none => rfl
    | some (some s) =>
      by_cases hs : s = ""
      · subst hs
        show (pyUpper "" == "") = true
        decide
      · have hred : storedLegendOfUpdate (some (some s)) old = some (pyUpper s) := by
          show (if s = "" then some s else some (pyUpper s)) = some (pyUpper s)
          rw [if_neg hs]
        rw [hred]
        show (pyUpper (pyUpper s) == pyUpper s) = true
        exact beq_iff_eq.mpr (pyUpper_idem s)
  refine ⟨hcreate, hupdate, ?_, ?_, ?_, ?_, ?_⟩
  · intro input user taxTable newId db db' hok r hr
    unfold create_reference at hok
    by_cases hdup : db.any (fun x => x.bibtex_key == input.bibtex_key) = true
    · rw [if_pos hdup] at hok
      exact Except.noConfusion hok
    · rw [if_neg hdup] at hok
      injection hok with hdb
      rw [← hdb] at hr
      rcases List.mem_append.mp hr with hin | hnew
      · exact Or.inl hin
      · right
        rw [List.mem_singleton.mp hnew]
        exact hcreate input.legend_category
  · intro entries parse_errors legend taxTable taxonomy_ids user raises newId db
    obtain ⟨new, h1, h2, h3⟩ := importLoop_invariant legend
      (taxTable.filter (fun t => taxonomy_ids.contains t.id)) user raises entries newId db []
      parse_errors
    constructor
    · intro r hr
      have hr2 : r ∈ db ++ new := h1 ▸ hr
      rcases List.mem_append.mp hr2 with hin | hnew
      · exact Or.inl hin
      · right
        rw [h3 r hnew]
        exact hcreate legend
    · intro r hr
      have hr2 : r ∈ ([] : List Reference) ++ new := h2 ▸ hr
      rw [List.nil_append] at hr2
      rw [h3 r hr2]
      exact hcreate legend
  · intro upd taxTable r hold
    exact hupdate upd.legend_category r.legend_category hold
  · intro input user taxTable newId db m hm
    unfold create_media at hm
    rcases List.mem_append.mp hm with hin | hnew
    · exact Or.inl hin
    · right
      rw [List.mem_singleton.mp hnew]
      exact hcreate input.legend_category
  · intro upd taxTable m hold
    exact hupdate upd.legend_category m.legend_category hold

/-- C10 witness: concrete instances of the invariant — a legend supplied in
lowercase is stored in uppercase by the create path, and an update that sets
"#abcdef" stores a value equal to its own uppercasing. -/
theorem C10_witness :
    upperNormalized (storedLegendOfCreate (some "#abcdef")) = true ∧
    upperNormalized (storedLegendOfUpdate (some (some "#abcdef")) none) = true :=
  ⟨C10_legend_normalized.1 (some "#abcdef"),
   C10_legend_normalized.2.1 (some (some "#abcdef")) none (by decide)⟩

/-! ## Claim C4 -/

/-- C4: a live `migrate_table_user_id` on a table whose user_id column is
declared VARCHAR(255) rebuilds it with declared type INTEGER; every row's
user_id that was NULL or the empty string becomes NULL, every other text value
becomes its SQLite integer cast, and all other columns pass through unchanged;
the change list records the CONVERT/COPY/RENAME steps. -/
theorem C4_convert_user_id (t : UserTable) (h : t.user_id_type = some "VARCHAR(255)") :
    (migrate_table_user_id t false).1.user_id_type = some "INTEGER" ∧
    (migrate_table_user_id t false).1.rows =
      t.rows.map (fun r => { user_id := convertUserId r.user_id, other := r.other }) ∧
    (migrate_table_user_id t false).1.name = t.name ∧
    (migrate_table_user_id t false).2 =
      ["CONVERT " ++ t.name ++ ".user_id VARCHAR(255) -> INTEGER",
       "COPY " ++ toString t.rows.length ++ " rows from " ++ t.name,
       "RENAME " ++ t.name ++ "_migration_temp -> " ++ t.name] ∧
    convertUserId SqlVal.null = SqlVal.null ∧
    convertUserId (SqlVal.text "") = SqlVal.null ∧
    (∀ s, s ≠ "" → convertUserId (SqlVal.text s) = SqlVal.int (castTextToInt s)) := by
  obtain ⟨name, ty, rows⟩ := t
  have h2 : ty = some "VARCHAR(255)" := h
  subst h2
  refine ⟨rfl, rfl, rfl, rfl, rfl, rfl, ?_⟩
  intro s hs
  show (if s = "" then SqlVal.null else SqlVal.int (castTextToInt s)) =
    SqlVal.int (castTextToInt s)
  rw [if_neg hs]

/-- C4 witness: the sample legacy bibmaps table: declared type becomes INTEGER
and the three rows convert to 42 / NULL / NULL with the other cells intact. -/
theorem C4_witness :
    (migrate_table_user_id bibmapsLegacy false).1.user_id_type = some "INTEGER" ∧
    (migrate_table_user_id bibmapsLegacy false).1.rows =
      bibmapsLegacy.rows.map (fun r => { user_id := convertUserId r.user_id, other := r.other }) := by
  have h := C4_convert_user_id bibmapsLegacy (by decide)
  exact ⟨h.1, h.2.1⟩

/-! ## Claim C5 -/

/-- C5: `migrate_table_user_id` is idempotent. After a successful conversion of
a VARCHAR(255) column, a second run changes nothing and returns only the
"SKIP table.user_id: already INTEGER" message; more generally any table whose
column already reads INTEGER is left untouched with that message, in dry and
live mode alike (the no-op is detected from the declared column type). -/
theorem C5_idempotent :
    (∀ (t : UserTable), t.user_id_type = some "VARCHAR(255)" →
      migrate_table_user_id (migrate_table_user_id t false).1 false =
        ((migrate_table_user_id t false).1,
         ["SKIP " ++ t.name ++ ".user_id: already INTEGER"])) ∧
    (∀ (t : UserTable) (dry : Bool), t.user_id_type = some "INTEGER" →
      migrate_table_user_id t dry =
        (t, ["SKIP " ++ t.name ++ ".user_id: already INTEGER"])) := by
  constructor
  · intro t h
    obtain ⟨name, ty, rows⟩ := t
    have h2 : ty = some "VARCHAR(255)" := h
    subst h2
    rfl
  · intro t dry h
    obtain ⟨name, ty, rows⟩ := t
    have h2 : ty = some "INTEGER" := h
    subst h2
    rfl

/-- C5 witness: converting the sample legacy bibmaps table and running the
migration again yields only the SKIP message and no change. -/
theorem C5_witness :
    migrate_table_user_id (migrate_table_user_id bibmapsLegacy false).1 false =
      ((migrate_table_user_id bibmapsLegacy false).1,
       ["SKIP bibmaps.user_id: already INTEGER"]) :=
  C5_idempotent.1 bibmapsLegacy (by decide)

/-! ## Claim C6 -/

/-- C6: a live `migrate_taxonomies` on a legacy-shaped taxonomies table (no
user_id, no is_global column) adds both columns and leaves every pre-existing
row with user_id NULL and is_global true (all other fields unchanged); on a
table that already has both columns, nothing is added and nothing changes. -/
theorem C6_taxonomies_migration :
    (∀ (t : TaxTable), t.has_user_id = false → t.has_is_global = false →
      (migrate_taxonomies t false).1.has_user_id = true ∧
      (migrate_taxonomies t false).1.has_is_global = true ∧
      (migrate_taxonomies t false).1.rows =
        t.rows.map (fun r => { r with user_id := none, is_global := true })) ∧
    (∀ (t : TaxTable) (dry : Bool), t.has_user_id = true → t.has_is_global = true →
      migrate_taxonomies t dry = (t, [])) := by
  constructor
  · intro t hu hg
    obtain ⟨u, g, rows⟩ := t
    have hu2 : u = false := hu
    have hg2 : g = false := hg
    subst hu2
    subst hg2
    refine ⟨rfl, rfl, ?_⟩
    show ((rows.map (fun (r : TaxRow) => { r with user_id := none })).map
        (fun (r : TaxRow) => { r with is_global := false })).map
        (fun (r : TaxRow) => if r.user_id = none then { r with is_global := true } else r) =
      rows.map (fun (r : TaxRow) => { r with user_id := none, is_global := true })
    rw [List.map_map, List.map_map]
    exact List.map_congr_left (fun r _ => rfl)
  · intro t dry hu hg
    obtain ⟨u, g, rows⟩ := t
    have hu2 : u = true := hu
    have hg2 : g = true := hg
    subst hu2
    subst hg2
    rfl

/-- C6 witness: the sample legacy taxonomies table: its one pre-existing row
comes out global and ownerless. -/
theorem C6_witness :
    (migrate_taxonomies taxLegacy false).1.has_user_id = true ∧
    (migrate_taxonomies taxLegacy false).1.has_is_global = true ∧
    (migrate_taxonomies taxLegacy false).1.rows =
      taxLegacy.rows.map (fun r => { r with user_id := none, is_global := true }) :=
  C6_taxonomies_migration.1 taxLegacy (by decide) (by decide)

/-! ## Dry-run lemmas -/

theorem migrate_taxonomies_dry_fst (t : TaxTable) : (migrate_taxonomies t true).1 = t := by
  obtain ⟨u, g, rows⟩ := t
  cases u <;> cases g <;> rfl

theorem migrate_table_user_id_dry_fst (t : UserTable) :
    (migrate_table_user_id t true).1 = t := by
  obtain ⟨name, ty, rows⟩ := t
  match ty with
  | none => rfl
  | some rawType =>
    simp only [migrate_table_user_id]
    by_cases c1 : check_column_type (some rawType) = "INTEGER"
    · rw [if_pos c1]
    · rw [if_neg c1]
      by_cases c2 : check_column_type (some rawType) = "VARCHAR(255)"
      · rw [if_neg (not_not_intro c2), if_pos trivial]
      · rw [if_pos c2]

theorem migrate_taxonomies_changes_sublist (t : TaxTable) :
    List.Sublist (migrate_taxonomies t true).2 (migrate_taxonomies t false).2 := by
  obtain ⟨u, g, rows⟩ := t
  cases u <;> cases g
  · exact List.Sublist.cons₂ _ (List.Sublist.cons₂ _ (List.nil_sublist _))
  · exact List.Sublist.cons₂ _ (List.nil_sublist _)
  · exact List.Sublist.cons₂ _ (List.nil_sublist _)
  · exact List.Sublist.refl _

theorem migrate_table_changes_sublist (t : UserTable) :
    List.Sublist (migrate_table_user_id t true).2 (migrate_table_user_id t false).2 := by
  obtain ⟨name, ty, rows⟩ := t
  match ty with
  | none => exact List.Sublist.refl _
  | some rawType =>
    simp only [migrate_table_user_id]
    by_cases c1 : check_column_type (some rawType) = "INTEGER"
    · rw [if_pos c1, if_pos c1]
    · rw [if_neg c1, if_neg c1]
      by_cases c2 : check_column_type (some rawType) = "VARCHAR(255)"
      · rw [if_neg (not_not_intro c2), if_neg (not_not_intro c2), if_pos trivial]
        exact List.Sublist.cons₂ _ (List.nil_sublist _)
      · rw [if_pos c2, if_pos c2]

/-! ## Claim C7 -/

/-- C7 counterexample: on a legacy database the dry run's reported change list
is not the live run's: the live run performs and reports the is_global
backfill UPDATE ("SET existing taxonomies to is_global=1"), which never
appears in the dry run's list (nor do the COPY/RENAME steps). -/
theorem C7_counterexample :
    (runMigrations dbLegacy true).2 ≠ (runMigrations dbLegacy false).2 ∧
    "SET existing taxonomies to is_global=1" ∈ (runMigrations dbLegacy false).2 ∧
    "SET existing taxonomies to is_global=1" ∉ (runMigrations dbLegacy true).2 := by
  decide

/-- C7 (amended): a dry run executes no DDL or DML — the database is returned
completely unchanged — and its reported change list is a sublist of the live
run's list on the same database; the live run additionally reports the
is_global backfill and the per-table COPY/RENAME steps. -/
theorem C7_dry_run (db : Database) :
    (runMigrations db true).1 = db ∧
    List.Sublist (runMigrations db true).2 (runMigrations db false).2 := by
  constructor
  · show ({ db with
      taxonomies := (migrate_taxonomies db.taxonomies true).1
      bibmaps := (migrate_table_user_id db.bibmaps true).1
      refs_table := (migrate_table_user_id db.refs_table true).1 } : Database) = db
    rw [migrate_taxonomies_dry_fst, migrate_table_user_id_dry_fst,
      migrate_table_user_id_dry_fst]
  · show List.Sublist
      ((migrate_taxonomies db.taxonomies true).2 ++ (migrate_table_user_id db.bibmaps true).2
        ++ (migrate_table_user_id db.refs_table true).2)
      ((migrate_taxonomies db.taxonomies false).2 ++ (migrate_table_user_id db.bibmaps false).2
        ++ (migrate_table_user_id db.refs_table false).2)
    exact ((migrate_taxonomies_changes_sublist db.taxonomies).append
      (migrate_table_changes_sublist db.bibmaps)).append
        (migrate_table_changes_sublist db.refs_table)

/-! ## Claim C8 -/

/-- C8 counterexample: the claim says a dry run exits 0, but the orphan check
runs in dry mode too and drives the exit code. On an already-migrated database
whose bibmaps table references user 99 while no users exist, a dry run changes
nothing yet exits 1. -/
theorem C8_counterexample :
    mainRun true dbOrphan true = (1, dbOrphan) ∧
    (runMigrations dbOrphan true).1 = dbOrphan ∧
    verify_foreign_keys dbOrphan ≠ [] := by
  decide

/-- C8 (amended): a missing database file exits 1 before touching anything;
otherwise the exit code of a run — dry or live alike — is 0 exactly when the
post-step orphaned-foreign-key verification reports no issues (so a dry run on
a database with pre-existing orphans also exits 1); and a live run keeps the
migrated state regardless of reported orphans, which are warnings only. -/
theorem C8_exit_codes :
    (∀ (db : Database) (dry : Bool), mainRun false db dry = (1, db)) ∧
    (∀ (db : Database) (dry : Bool), (mainRun true db dry).1 =
      (if verify_foreign_keys (runMigrations db dry).1 = [] then 0 else 1)) ∧
    (∀ db : Database, (mainRun true db false).2 = (runMigrations db false).1) := by
  refine ⟨fun db dry => rfl, fun db dry => rfl, fun db => rfl⟩

end BibMaps
